import Mathlib

/-!
Verification of `bambu_callback.py`.

The script orchestrates an external slicer and computes a cost estimate.
Python numbers in the cost pipeline are IEEE-754 binary64 floats; we model
every float value as the exact rational it denotes, and every Python float
operation as exact rational arithmetic followed by rounding to 53 significant
bits (round to nearest, ties to even).  All values appearing in this program
are well inside the normal range of binary64, so overflow and subnormal
behaviour never arise and are not modelled.

Because `Rat` arithmetic does not reduce inside `decide`, the executable model
uses `PRat`, an unreduced fraction of integers, together with `PRat.toQ` and
bridge lemmas to state facts over `ℚ`.
-/

set_option maxRecDepth 100000

/-- An unreduced rational number `n / d`.  All model computations keep `d > 0`. -/
structure PRat where
  n : ℤ
  d : ℤ
deriving DecidableEq

def PRat.ofInt (a : ℤ) : PRat := ⟨a, 1⟩

/-- Build `a / b`, normalising the sign into the numerator. -/
def PRat.mk2 (a b : ℤ) : PRat := if b < 0 then ⟨-a, -b⟩ else ⟨a, b⟩

def PRat.add (x y : PRat) : PRat := ⟨x.n * y.d + y.n * x.d, x.d * y.d⟩

def PRat.mul (x y : PRat) : PRat := ⟨x.n * y.n, x.d * y.d⟩

def PRat.div (x y : PRat) : PRat := PRat.mk2 (x.n * y.d) (x.d * y.n)

def PRat.neg (x : PRat) : PRat := ⟨-x.n, x.d⟩

def PRat.sub (x y : PRat) : PRat := PRat.add x (PRat.neg y)

/-- Value equality of unreduced fractions (valid when both `d > 0`). -/
def PRat.beq (x y : PRat) : Bool := x.n * y.d == y.n * x.d

def PRat.toQ (x : PRat) : ℚ := (x.n : ℚ) / (x.d : ℚ)

/-- `⌊x⌋` for an unreduced fraction with `d > 0`. -/
def PRat.floor (x : PRat) : ℤ := Int.fdiv x.n x.d

/-- Round an unreduced fraction (with `d > 0`) to the nearest integer,
ties to even. -/
def roundHalfEvenInt (q : PRat) : ℤ :=
  let f : ℤ := q.floor
  let t : ℤ := 2 * (q.n - f * q.d)
  if t < q.d then f else if q.d < t then f + 1 else if f % 2 = 0 then f else f + 1

/-- Number of binary digits of `n` (0 for 0), via a fuel-based structural
recursion so that the kernel can evaluate it. -/
def bitLenAux : ℕ → ℕ → ℕ
  | 0, _ => 0
  | fuel+1, m => if m = 0 then 0 else bitLenAux fuel (m / 2) + 1

def bitLen (m : ℕ) : ℕ := bitLenAux m m

/-- The binary exponent of a positive fraction: the unique `e` with
`2 ^ e ≤ q < 2 ^ (e + 1)`. -/
def binExpP (q : PRat) : ℤ :=
  let nn : ℕ := q.n.natAbs
  let dd : ℕ := q.d.natAbs
  let e2 : ℤ := (bitLen nn : ℤ) - (bitLen dd : ℤ)
  let ge : Bool :=
    if 0 ≤ e2 then decide (2 ^ e2.toNat * dd ≤ nn) else decide (dd ≤ 2 ^ (-e2).toNat * nn)
  if ge then e2 else e2 - 1

/-- Round a positive fraction to 53 significant binary digits
(nearest, ties to even). -/
def flPosP (q : PRat) : PRat :=
  let e := binExpP q
  if 0 ≤ 52 - e then
    let s : ℤ := 2 ^ (52 - e).toNat
    ⟨roundHalfEvenInt ⟨q.n * s, q.d⟩, s⟩
  else
    let s : ℤ := 2 ^ (e - 52).toNat
    ⟨roundHalfEvenInt ⟨q.n, q.d * s⟩ * s, 1⟩

/-- Rounding of an exact rational to the nearest IEEE-754 binary64 value
(normal range; ties to even). Every Python float arithmetic operation in the
script is modelled as the exact operation followed by `flP`. -/
def flP (q : PRat) : PRat :=
  if q.n = 0 then ⟨0, 1⟩
  else if 0 < q.n then flPosP q
  else PRat.neg (flPosP (PRat.neg q))

/-- Python float addition. -/
def pyAdd (x y : PRat) : PRat := flP (PRat.add x y)

/-- Python float multiplication. -/
def pyMul (x y : PRat) : PRat := flP (PRat.mul x y)

/-- Python (true) division producing a float. -/
def pyDivF (x y : PRat) : PRat := flP (PRat.div x y)

/-- CPython `round(x, k)` on a float: round the exact value of `x` to `k`
decimal digits (ties to even), then return the nearest binary64 value. -/
def pyRoundP (x : PRat) (k : ℕ) : PRat :=
  flP ⟨roundHalfEvenInt ⟨x.n * ((10 : ℤ) ^ k), x.d⟩, (10 : ℤ) ^ k⟩

/-!
String helpers.  Paths and file names are modelled as `List Char`.  The script
only ever handles ASCII names, for which `Char.toLower` agrees with Python
`str.lower`.
-/

def lowerChars (s : List Char) : List Char := s.map Char.toLower

/-- Python `haystack.endswith(suffix)`. -/
def endsWithL (s suffix : List Char) : Bool := suffix.isSuffixOf s

/-- Python `needle in haystack` substring test. -/
def containsSub (needle hay : List Char) : Bool :=
  hay.tails.any (fun t => needle.isPrefixOf t)

/-- Python `s.rfind(c)`: index of the last occurrence of `c`, `-1` if absent. -/
def pyRfind (c : Char) (s : List Char) : ℤ :=
  match s with
  | [] => -1
  | a :: rest =>
    let r := pyRfind c rest
    if 0 ≤ r then r + 1 else if a = c then 0 else -1

/-- The extension part of `posixpath.splitext` (line 71 uses
`os.path.splitext(project_file)[1]`): it starts at the last dot, provided that
dot comes after the last path separator and the base name has a non-dot
character before it. -/
def splitext_ext (p : List Char) : List Char :=
  let sepIndex : ℤ := pyRfind '/' p
  let dotIndex : ℤ := pyRfind '.' p
  if dotIndex > sepIndex ∧
      ((List.range p.length).any (fun j =>
        decide (sepIndex < (j : ℤ)) && decide ((j : ℤ) < dotIndex) &&
          !(p.getD j ' ' = '.'))) then
    p.drop dotIndex.toNat
  else []

/-!
Embedding of the input-classification logic of `bambu_callback.py`
(lines 70-108).  An archive is modelled as `Option (List (List Char))`: the
member-name list of the zip, or `none` when opening the file as a zip raises
(the `except Exception: return False` branch of `check_3mf_has_slice_data`).
-/

/-- Line 71-72: `input_extension = os.path.splitext(project_file)[1].lower()`,
`is_3mf_file = input_extension == ".3mf"`. -/
def is_3mf_file (project_file : List Char) : Bool :=
  lowerChars (splitext_ext project_file) = (".3mf").toList

/-- Lines 74-91: a 3MF file has slice data when its member list contains a
name ending in `slice_info.config` and a name ending in `.gcode` whose
lower-cased form contains `plate`; a file that cannot be opened as a zip
yields `False`. -/
def check_3mf_has_slice_data (archive : Option (List (List Char))) : Bool :=
  match archive with
  | none => false
  | some file_list =>
    (file_list.any (fun f => endsWithL f (("slice_info.config").toList))) &&
      (file_list.any (fun f =>
        endsWithL f ((".gcode").toList) && containsSub (("plate").toList) (lowerChars f)))

/-- Lines 93-96: slice data is probed only when the extension says 3MF. -/
def is_presliced_3mf (project_file : List Char) (archive : Option (List (List Char))) : Bool :=
  is_3mf_file project_file && check_3mf_has_slice_data archive

/-- Line 99: `needs_slicing = not is_presliced_3mf`. -/
def needs_slicing (project_file : List Char) (archive : Option (List (List Char))) : Bool :=
  !(is_presliced_3mf project_file archive)

/-- Lines 101-108: for a pre-sliced 3MF the input path itself becomes the
artifact to parse; otherwise the generated output path inside the work
directory is used. -/
def min_save_3mf (project_file : List Char) (archive : Option (List (List Char)))
    (outputPath : List Char) : List Char :=
  if is_presliced_3mf project_file archive then project_file else outputPath

/-!
Control-flow model of the main execution (lines 177-672), covering every exit
path: non-zero slicer exit (453-454), slicer timeout (489-490), unexpected
supervision exception (492-498), missing output archive (520-523), invalid
archive container (563-566), and normal completion (669).
-/

/-- Outcome of the supervised external slicer process. -/
inductive SlicerOutcome where
  | success
  | nonzeroExit
  | timeoutExpired
  | exceptionRaised
deriving DecidableEq

/-- Observable summary of one run: exit code, whether
`cleanup_current_work_dir` ran before terminating, whether the X11/OpenGL
validation probes ran, whether the slicer process was launched, and the
archive path handed to the metadata parser. -/
structure RunResult where
  exitCode : ℕ
  cleanupInvoked : Bool
  probesRun : Bool
  slicerLaunched : Bool
  artifactPath : List Char
deriving DecidableEq

/-- Lines 520-523, 526-566 and 662-669: parse the artifact; a missing file or
a `BadZipFile` cleans up and exits 1, success cleans up and exits 0. -/
def parsePhase (artifact : List Char) (probes launched outputExists archiveValid : Bool) :
    RunResult :=
  if outputExists = false then ⟨1, true, probes, launched, artifact⟩
  else if archiveValid = false then ⟨1, true, probes, launched, artifact⟩
  else ⟨0, true, probes, launched, artifact⟩

/-- The main flow: when slicing is needed the probes run and the slicer is
launched (lines 308-498); every failing branch calls
`cleanup_current_work_dir` before `sys.exit(1)`. -/
def runMain (project_file : List Char) (archive : Option (List (List Char)))
    (outputPath : List Char) (slicer : SlicerOutcome) (outputExists archiveValid : Bool) :
    RunResult :=
  let artifact := min_save_3mf project_file archive outputPath
  if needs_slicing project_file archive then
    match slicer with
    | .success => parsePhase artifact true true outputExists archiveValid
    | .nonzeroExit => ⟨1, true, true, true, artifact⟩
    | .timeoutExpired => ⟨1, true, true, true, artifact⟩
    | .exceptionRaised => ⟨1, true, true, true, artifact⟩
  else parsePhase artifact false false outputExists archiveValid

/-!
Model of `cleanup_current_work_dir` (lines 168-175).  The body
(`os.path.exists`, `shutil.rmtree(..., ignore_errors=True)`, `log`) may raise;
the surrounding `try`/`except` catches any exception and only logs it.
-/

/-- Ways the teardown body can behave. `rmtree` is called with
`ignore_errors=True` and never raises by itself. -/
structure CleanupEnv where
  dirExists : Bool
  existsCheckRaises : Bool
  logRaises : Bool
deriving DecidableEq

/-- The `try` body of `cleanup_current_work_dir`: an `Except` models a raised
exception. -/
def cleanup_body (e : CleanupEnv) : Except (List Char) (List (List Char)) :=
  if e.existsCheckRaises then .error (("oserror").toList)
  else if e.dirExists then
    if e.logRaises then .error (("logerror").toList)
    else .ok [("Cleaned up work directory").toList]
  else .ok []

/-- Lines 168-175 as a whole: any exception from the body is caught and turned
into a log line, so teardown itself never raises. -/
def cleanup_current_work_dir (e : CleanupEnv) : Except (List Char) (List (List Char)) :=
  match cleanup_body e with
  | .ok logs => .ok logs
  | .error msg => .ok [("Failed to cleanup work directory: ").toList ++ msg]

/-!
Request identifier (line 22):
`request_id = sys.argv[2] if len(sys.argv) > 2 else str(uuid.uuid4())[:8]`.
-/

/-- The sixteen lowercase hexadecimal digits used by `str(uuid.uuid4())`:
digit values 0-9 map to the characters `0`-`9` (codes 48-57) and values 10-15
to `a`-`f` (codes 97-102). -/
def hexDigit (i : Fin 16) : Char :=
  if (i : ℕ) < 10 then Char.ofNat (48 + (i : ℕ)) else Char.ofNat (87 + (i : ℕ))

/-- Shape of `str(uuid.uuid4())`: 36 characters, dashes at positions 8, 13,
18, 23, lowercase hex digits everywhere else. -/
def isUuid4String (s : List Char) : Bool :=
  s.length == 36 &&
    (List.range 36).all (fun i =>
      if i = 8 ∨ i = 13 ∨ i = 18 ∨ i = 23 then s.getD i ' ' == '-'
      else (List.ofFn hexDigit).contains (s.getD i ' '))

/-- Line 22: the generated identifier is `str(uuid.uuid4())[:8]`. -/
def gen_request_id (uuidStr : List Char) : List Char := uuidStr.take 8

/-- Every identifier the generator can produce: strings of 8 lowercase hex
digits. -/
def requestIdSpace : Finset (List Char) :=
  Finset.image (fun f : Fin 8 → Fin 16 => List.ofFn (fun i => hexDigit (f i))) Finset.univ

/-!
Infill density override (lines 244-248):
`density_value = INFILL_DENSITY if INFILL_DENSITY.endswith('%') else f"{INFILL_DENSITY}%"`.
-/

def density_value (INFILL_DENSITY : List Char) : List Char :=
  if endsWithL INFILL_DENSITY ['%'] then INFILL_DENSITY else INFILL_DENSITY ++ ['%']

/-!
Print-duration extraction (lines 551-581).  The third line of
`Metadata/plate_1.gcode` is searched with
`total estimated time: ((?:(\d+)d\s*)?(?:(\d+)h\s*)?(?:(\d+)m\s*)?(?:(\d+)s)?)`.
Since every component group is optional, the regex matches at the first
occurrence of the literal marker, and each component is consumed greedily in
order when its digits are followed by its unit letter.  The gcode header is
ASCII, for which `Char.isDigit` agrees with `\d` and the listed characters
with `\s`.
-/

def markerChars : List Char := ("total estimated time: ").toList

def parseDigitsAux : List Char → ℕ → ℕ × List Char
  | [], acc => (acc, [])
  | c :: rest, acc =>
    if c.isDigit then parseDigitsAux rest (acc * 10 + (c.toNat - 48)) else (acc, c :: rest)

/-- `(\d+)`: one or more digits, greedy. -/
def parseNum (s : List Char) : Option (ℕ × List Char) :=
  match s with
  | c :: _ => if c.isDigit then some (parseDigitsAux s 0) else none
  | [] => none

/-- Python regex `\s` on ASCII text. -/
def isSpaceCh (c : Char) : Bool :=
  c == ' ' || c == '\t' || c == '\n' || c == '\r' || c == Char.ofNat 11 || c == Char.ofNat 12

/-- One optional component `(?:(\d+)X\s*)?`: digits followed by the unit
letter, then optional whitespace; on failure nothing is consumed. -/
def tryComp (letter : Char) (ws : Bool) (s : List Char) : Option ℕ × List Char :=
  match parseNum s with
  | none => (none, s)
  | some (n, rest) =>
    match rest with
    | c :: rest2 =>
      if c = letter then (some n, if ws then rest2.dropWhile isSpaceCh else rest2) else (none, s)
    | [] => (none, s)

/-- The four capture groups of the duration pattern, in order `d h m s`. -/
def parseDuration (s : List Char) : Option ℕ × Option ℕ × Option ℕ × Option ℕ :=
  let p1 := tryComp 'd' true s
  let p2 := tryComp 'h' true p1.2
  let p3 := tryComp 'm' true p2.2
  let p4 := tryComp 's' false p3.2
  (p1.1, p2.1, p3.1, p4.1)

/-- `re.search`: the leftmost occurrence of the marker; returns the text after
it. -/
def findMarker (marker : List Char) : List Char → Option (List Char)
  | [] => if marker.isPrefixOf [] then some [] else none
  | c :: rest =>
    if marker.isPrefixOf (c :: rest) then some ((c :: rest).drop marker.length)
    else findMarker marker rest

/-- Lines 572-576: missing groups count as 0 and
`Total_printing_hours = days * 24 + hours + minutes / 60 + seconds / 3600`
evaluated in Python float arithmetic (the integer part is converted to float
when first added to a float). -/
def hoursOfGroups (d h m s : Option ℕ) : PRat :=
  let days : ℕ := d.getD 0
  let hours : ℕ := h.getD 0
  let minutes : ℕ := m.getD 0
  let seconds : ℕ := s.getD 0
  pyAdd (pyAdd (flP (PRat.ofInt (days * 24 + hours)))
      (pyDivF (PRat.ofInt minutes) (PRat.ofInt 60)))
    (pyDivF (PRat.ofInt seconds) (PRat.ofInt 3600))

/-- Lines 569-580: no header line, or no marker in it, yields 0 hours. -/
def Total_printing_hours (printing_time_line : Option (List Char)) : PRat :=
  match printing_time_line with
  | none => PRat.ofInt 0
  | some line =>
    match findMarker markerChars line with
    | none => PRat.ofInt 0
    | some rest =>
      match parseDuration rest with
      | (d, h, m, s) => hoursOfGroups d h m s

/-!
Cost pipeline (lines 506-653), in Python float semantics.
-/

/-- One row of the consumable-parts table (lines 586-604). -/
structure DepItem where
  name : List Char
  price : ℤ
  lifespan_min : ℤ
deriving DecidableEq

/-- Lines 583-584: `return item_name, round(cost / lifespan_hours, 3)`. -/
def calculate_cost_per_hour (item_name : List Char) (cost lifespan_hours : ℤ) :
    List Char × PRat :=
  (item_name, pyRoundP (pyDivF (PRat.ofInt cost) (PRat.ofInt lifespan_hours)) 3)

/-- Lines 586-604, verbatim, including the `5*365*24` lifespan of the LCD
Screen row. -/
def items : List DepItem := [
  ⟨("Nozzle").toList, 10, 300⟩,
  ⟨("PTFE Tube (Hotend Liner)").toList, 5, 500⟩,
  ⟨("Extruder Gears").toList, 20, 1000⟩,
  ⟨("Build Plate Surface").toList, 30, 500⟩,
  ⟨("Cooling Fans").toList, 15, 2000⟩,
  ⟨("Belts").toList, 10, 2000⟩,
  ⟨("Linear Bearings and Rods").toList, 40, 3000⟩,
  ⟨("Hotend Heater Cartridge").toList, 15, 2000⟩,
  ⟨("Thermistor").toList, 10, 2000⟩,
  ⟨("Drive Gears/Pulleys").toList, 25, 3000⟩,
  ⟨("Motherboard").toList, 150, 5000⟩,
  ⟨("Stepper Driver").toList, 20, 5000⟩,
  ⟨("LCD Screen").toList, 60, 5*365*24⟩,
  ⟨("Power Supply Unit (PSU)").toList, 80, 5000⟩,
  ⟨("Stepper Motors").toList, 30, 10000⟩,
  ⟨("Filament Sensor").toList, 15, 3000⟩,
  ⟨("Print Bed Heating Element").toList, 50, 5000⟩]

/-- Lines 605-608: float accumulation of the per-item rounded rates, starting
from the integer 0. -/
def total_dep_cost_per_hour : PRat :=
  items.foldl
    (fun acc it => pyAdd acc (calculate_cost_per_hour it.name it.price it.lifespan_min).2)
    (PRat.ofInt 0)

/-- The depreciation rate the spec describes: the plain sum of
`price / lifespan` over the table, with no rounding. -/
def specDepRatePerHour : ℚ :=
  (items.map (fun it => (it.price : ℚ) / (it.lifespan_min : ℚ))).sum

/-- Lines 611-612: `round((power_watts / 1000) * electricity_rate_per_kwh, 3)`. -/
def calculate_electricity_cost (power_watts : ℤ) (electricity_rate_per_kwh : PRat) : PRat :=
  pyRoundP (pyMul (pyDivF (PRat.ofInt power_watts) (PRat.ofInt 1000)) electricity_rate_per_kwh) 3

def power_consumption_watts : ℤ := 105

/-- Line 615: the float literal `0.06`. -/
def electricity_rate_per_kwh : PRat := flP ⟨6, 100⟩

/-- Line 616. -/
def electricity_cost_per_hour : PRat :=
  calculate_electricity_cost power_consumption_watts electricity_rate_per_kwh

/-- Lines 619-620: `round((filament_price / spool_weight) * total_used_grams, 2)`. -/
def calculate_filament_cost (filament_price spool_weight grams : PRat) : PRat :=
  pyRoundP (pyMul (pyDivF filament_price spool_weight) grams) 2

/-- Line 623: `float(os.environ.get("FILAMENT_PRICE", "12"))` with the default. -/
def filament_price_default : PRat := flP ⟨12, 1⟩

/-- Line 515: the float literal `1.24`. -/
def DEFAULT_FILAMENT_DENSITY : PRat := flP ⟨124, 100⟩

/-- Line 516: the float literal `0.175`. -/
def FILAMENT_DIAMETER_CM : PRat := flP ⟨175, 1000⟩

/-- Line 517: `3.14159 * (FILAMENT_DIAMETER_CM / 2) ** 2`. -/
def FILAMENT_CROSS_SECTION : PRat :=
  let t := pyDivF FILAMENT_DIAMETER_CM (PRat.ofInt 2)
  pyMul (flP ⟨314159, 100000⟩) (pyMul t t)

/-- Lines 627-635: prefer the parsed `used_g`; when it is absent or zero and a
length is available, derive the grams as
`used_meters * 100 * FILAMENT_CROSS_SECTION * DEFAULT_FILAMENT_DENSITY`.
The inputs model `float(used_g_value)` / `float(used_m_value)`. -/
def total_used_grams (used_g used_m : Option PRat) : PRat :=
  let g0 : PRat := match used_g with | some v => v | none => PRat.ofInt 0
  if PRat.beq g0 (PRat.ofInt 0) then
    match used_m with
    | some used_meters =>
      pyMul (pyMul (pyMul used_meters (PRat.ofInt 100)) FILAMENT_CROSS_SECTION)
        DEFAULT_FILAMENT_DENSITY
    | none => g0
  else g0

/-- Line 637. -/
def filament_cost (filament_price grams : PRat) : PRat :=
  calculate_filament_cost filament_price (PRat.ofInt 1000) grams

/-- Line 640. -/
def total_depreciation_cost (hours : PRat) : PRat := pyMul hours total_dep_cost_per_hour

/-- Line 641. -/
def total_electricity_cost (hours : PRat) : PRat := pyMul hours electricity_cost_per_hour

/-- Line 642: `total_depreciation_cost + total_electricity_cost + filament_cost`. -/
def total_cost (hours fil : PRat) : PRat :=
  pyAdd (pyAdd (total_depreciation_cost hours) (total_electricity_cost hours)) fil

/-- Lines 645-653: the rounded fields of `result_json`. -/
structure ResultJson where
  total_cost : PRat
  printing_hours : PRat
  filament_grams : PRat
  filament_cost : PRat
  depreciation_cost : PRat
  electricity_cost : PRat
deriving DecidableEq

def result_json (hours fil grams : PRat) : ResultJson :=
  ⟨pyRoundP (total_cost hours fil) 4, pyRoundP hours 3, pyRoundP grams 2,
    pyRoundP fil 2, pyRoundP (total_depreciation_cost hours) 4,
    pyRoundP (total_electricity_cost hours) 4⟩

/-! Bridge lemmas relating `PRat` comparisons to `ℚ` facts, plus convenience
forms with an integer-literal fraction on the right. -/

theorem PRat.toQ_eq_toQ (x y : PRat) (hx : 0 < x.d) (hy : 0 < y.d) :
    x.toQ = y.toQ ↔ x.n * y.d = y.n * x.d := by
  unfold PRat.toQ
  rw [div_eq_div_iff (by exact_mod_cast hx.ne' : (x.d : ℚ) ≠ 0)
    (by exact_mod_cast hy.ne' : (y.d : ℚ) ≠ 0)]
  exact_mod_cast Iff.rfl

theorem PRat.toQ_le_toQ (x y : PRat) (hx : 0 < x.d) (hy : 0 < y.d) :
    x.toQ ≤ y.toQ ↔ x.n * y.d ≤ y.n * x.d := by
  unfold PRat.toQ
  rw [div_le_div_iff₀ (by exact_mod_cast hx : (0:ℚ) < x.d)
    (by exact_mod_cast hy : (0:ℚ) < y.d)]
  exact_mod_cast Iff.rfl

theorem PRat.toQ_add (x y : PRat) (hx : 0 < x.d) (hy : 0 < y.d) :
    (PRat.add x y).toQ = x.toQ + y.toQ := by
  unfold PRat.add PRat.toQ
  have hx0 : (x.d : ℚ) ≠ 0 := by exact_mod_cast hx.ne'
  have hy0 : (y.d : ℚ) ≠ 0 := by exact_mod_cast hy.ne'
  push_cast
  field_simp


theorem PRat.toQ_lt_toQ (x y : PRat) (hx : 0 < x.d) (hy : 0 < y.d) :
    x.toQ < y.toQ ↔ x.n * y.d < y.n * x.d := by
  unfold PRat.toQ
  rw [div_lt_div_iff₀ (by exact_mod_cast hx : (0:ℚ) < x.d)
    (by exact_mod_cast hy : (0:ℚ) < y.d)]
  exact_mod_cast Iff.rfl

theorem PRat.toQ_eq_of (x : PRat) (a b : ℤ) (hx : 0 < x.d) (hb : 0 < b)
    (h : x.n * b = a * x.d) : x.toQ = (a : ℚ) / (b : ℚ) :=
  (PRat.toQ_eq_toQ x ⟨a, b⟩ hx hb).mpr h

theorem PRat.toQ_ne_of (x : PRat) (a b : ℤ) (hx : 0 < x.d) (hb : 0 < b)
    (h : ¬ x.n * b = a * x.d) : x.toQ ≠ (a : ℚ) / (b : ℚ) :=
  fun he => h ((PRat.toQ_eq_toQ x ⟨a, b⟩ hx hb).mp he)

theorem PRat.toQ_lt_of (x : PRat) (a b : ℤ) (hx : 0 < x.d) (hb : 0 < b)
    (h : x.n * b < a * x.d) : x.toQ < (a : ℚ) / (b : ℚ) :=
  (PRat.toQ_lt_toQ x ⟨a, b⟩ hx hb).mpr h

theorem PRat.lt_toQ_of (x : PRat) (a b : ℤ) (hx : 0 < x.d) (hb : 0 < b)
    (h : a * x.d < x.n * b) : (a : ℚ) / (b : ℚ) < x.toQ :=
  (PRat.toQ_lt_toQ ⟨a, b⟩ x hb hx).mpr h

/-- Cross-check of the float model against CPython: `round(15/2000, 3)` is the
double 0.007 (the exact value of `0.0075` is rounded down because the nearest
double to 0.0075 lies below it). -/
theorem model_matches_cpython_round_ties :
    pyRoundP (pyDivF (PRat.ofInt 15) (PRat.ofInt 2000)) 3 =
      ⟨8070450532247929, 1152921504606846976⟩ := by decide

/-- Cross-check of the float model against CPython: `45/3600` is the double
`0.0125`. -/
theorem model_matches_cpython_div :
    PRat.beq (pyDivF (PRat.ofInt 45) (PRat.ofInt 3600))
      ⟨3602879701896397, 288230376151711744⟩ = true := by decide

/-!
Claim theorems.
-/

/-- C1: on every modelled exit path of the program — non-zero slicer exit,
slicer timeout, unexpected supervision exception, missing output archive,
invalid archive container, and normal completion — the work-directory
teardown `cleanup_current_work_dir` is invoked before the process terminates;
and the teardown itself never raises, since its whole body sits in a
`try`/`except` that only logs failures. -/
theorem claim_C1_teardown_on_every_exit_path :
    (∀ (p : List Char) (a : Option (List (List Char))) (op : List Char)
        (s : SlicerOutcome) (oe av : Bool),
      (runMain p a op s oe av).cleanupInvoked = true) ∧
    (∀ e : CleanupEnv, ∃ logs, cleanup_current_work_dir e = Except.ok logs) := by
  constructor
  · intro p a op s oe av
    unfold runMain parsePhase
    rcases s <;> cases hns : needs_slicing p a <;> cases oe <;> cases av <;> simp
  · intro e
    unfold cleanup_current_work_dir cleanup_body
    rcases e with ⟨de, er, lr⟩
    cases er <;> cases de <;> cases lr <;> exact ⟨_, rfl⟩

/-- C2 counterexample: the header duration `1d 2h 3m 4s` does not parse to
26.05 hours — neither to the exact rational 521/20 nor to the Python float
`26.05` — because 4 seconds contribute 1/900 of an hour on top of 26.05. -/
theorem claim_C2_counterexample :
    (Total_printing_hours (some (("; total estimated time: 1d 2h 3m 4s").toList))).toQ ≠
        (521 : ℚ) / 20 ∧
      Total_printing_hours (some (("; total estimated time: 1d 2h 3m 4s").toList)) ≠
        flP ⟨2605, 100⟩ := by
  constructor
  · simpa using PRat.toQ_ne_of
      (Total_printing_hours (some (("; total estimated time: 1d 2h 3m 4s").toList))) 521 20
      (by decide) (by decide) (by decide)
  · decide

/-- C2 (amended): the parsed printing time is the IEEE-754 double evaluation
of `days * 24 + hours + minutes / 60 + seconds / 3600`; `1d 2h 3m 4s` yields
the double 26.051111111111112 (strictly between 26.051 and 26.052), not
26.05; `45s` alone yields the Python float `0.0125` (the double nearest
1/80); an empty or missing duration field yields 0 hours. -/
theorem claim_C2_amended_duration_parse :
    (∀ d h m s : Option ℕ, hoursOfGroups d h m s =
      pyAdd (pyAdd (flP (PRat.ofInt ((d.getD 0) * 24 + h.getD 0)))
          (pyDivF (PRat.ofInt (m.getD 0)) (PRat.ofInt 60)))
        (pyDivF (PRat.ofInt (s.getD 0)) (PRat.ofInt 3600))) ∧
    ((26051 : ℚ) / 1000 <
        (Total_printing_hours (some (("; total estimated time: 1d 2h 3m 4s").toList))).toQ ∧
      (Total_printing_hours (some (("; total estimated time: 1d 2h 3m 4s").toList))).toQ <
        (26052 : ℚ) / 1000) ∧
    Total_printing_hours (some (("; total estimated time: 45s").toList)) = flP ⟨1, 80⟩ ∧
    Total_printing_hours (some (("; total estimated time: ").toList)) = PRat.ofInt 0 ∧
    Total_printing_hours none = PRat.ofInt 0 := by
  refine ⟨fun d h m s => rfl, ⟨?_, ?_⟩, by decide, by decide, rfl⟩
  · simpa using PRat.lt_toQ_of
      (Total_printing_hours (some (("; total estimated time: 1d 2h 3m 4s").toList))) 26051 1000
      (by decide) (by decide) (by decide)
  · simpa using PRat.toQ_lt_of
      (Total_printing_hours (some (("; total estimated time: 1d 2h 3m 4s").toList))) 26052 1000
      (by decide) (by decide) (by decide)

/-- C3 counterexample: an input named `model.stl` whose content is a valid
archive containing both a `slice_info.config` entry and a plate gcode entry
is still sent to the slicer: pre-sliced detection is gated on the `.3mf`
extension, so the claim does not hold for every such archive. -/
theorem claim_C3_counterexample :
    check_3mf_has_slice_data
        (some [("Metadata/slice_info.config").toList, ("Metadata/plate_1.gcode").toList]) =
      true ∧
    needs_slicing (("model.stl").toList)
        (some [("Metadata/slice_info.config").toList, ("Metadata/plate_1.gcode").toList]) =
      true ∧
    (runMain (("model.stl").toList)
        (some [("Metadata/slice_info.config").toList, ("Metadata/plate_1.gcode").toList])
        (("out.3mf").toList) .success true true).slicerLaunched = true := by
  decide

/-- C3 (amended): for every input whose extension is `.3mf` (case-insensitive)
and whose archive contains both a filament-usage metadata entry and a plate
machine-instruction entry, the slicer is never launched, the validation
probes are skipped, and the supplied archive path itself is the artifact
handed to the parser. -/
theorem claim_C3_amended_presliced_skips_slicer :
    ∀ (p : List Char) (a : Option (List (List Char))) (op : List Char)
      (s : SlicerOutcome) (oe av : Bool),
      is_3mf_file p = true → check_3mf_has_slice_data a = true →
      (runMain p a op s oe av).slicerLaunched = false ∧
      (runMain p a op s oe av).probesRun = false ∧
      (runMain p a op s oe av).artifactPath = p := by
  intro p a op s oe av h1 h2
  have hpre : is_presliced_3mf p a = true := by
    unfold is_presliced_3mf
    rw [h1, h2]
    rfl
  have hns : needs_slicing p a = false := by
    unfold needs_slicing
    rw [hpre]
    rfl
  unfold runMain parsePhase min_save_3mf
  rw [hpre, hns]
  cases oe <;> cases av <;> simp

theorem claim_C3_witness :
    is_3mf_file (("model.3mf").toList) = true ∧
    check_3mf_has_slice_data
        (some [("Metadata/slice_info.config").toList, ("3D/plate_2.gcode").toList]) = true ∧
    ((runMain (("model.3mf").toList)
        (some [("Metadata/slice_info.config").toList, ("3D/plate_2.gcode").toList])
        (("out.3mf").toList) .success true true).slicerLaunched = false ∧
      (runMain (("model.3mf").toList)
        (some [("Metadata/slice_info.config").toList, ("3D/plate_2.gcode").toList])
        (("out.3mf").toList) .success true true).probesRun = false ∧
      (runMain (("model.3mf").toList)
        (some [("Metadata/slice_info.config").toList, ("3D/plate_2.gcode").toList])
        (("out.3mf").toList) .success true true).artifactPath = ("model.3mf").toList) :=
  ⟨by decide, by decide,
    claim_C3_amended_presliced_skips_slicer _ _ _ _ _ _ (by decide) (by decide)⟩

/-- C4 counterexample: at one printing hour the computed electricity cost is
the Python float 0.006, not `1 * (105/1000) * 0.06 = 0.0063`: line 612 rounds
the hourly rate to 3 decimals before it is ever multiplied by the hours. -/
theorem claim_C4_counterexample :
    (total_electricity_cost (PRat.ofInt 1)).toQ ≠ (63 : ℚ) / 10000 := by
  simpa using PRat.toQ_ne_of (total_electricity_cost (PRat.ofInt 1)) 63 10000
    (by decide) (by decide) (by decide)

/-- C4 (amended): the fixed defaults are 105 W and 0.06 per kWh, but the
hourly rate is `round((105/1000) * 0.06, 3)`, i.e. the Python float 0.006
(within 10⁻⁶ of 6/1000), and the electricity cost is the float product of the
printing hours with that rounded rate — `hours * 0.0063` is never computed. -/
theorem claim_C4_amended_electricity :
    electricity_cost_per_hour =
      pyRoundP (pyMul (pyDivF (PRat.ofInt 105) (PRat.ofInt 1000)) (flP ⟨6, 100⟩)) 3 ∧
    electricity_cost_per_hour = flP ⟨6, 1000⟩ ∧
    ((5999 : ℚ) / 1000000 < electricity_cost_per_hour.toQ ∧
      electricity_cost_per_hour.toQ < (6001 : ℚ) / 1000000) ∧
    power_consumption_watts = 105 ∧
    electricity_rate_per_kwh = flP ⟨6, 100⟩ ∧
    ∀ hours : PRat, total_electricity_cost hours = pyMul hours electricity_cost_per_hour := by
  refine ⟨rfl, by decide, ⟨?_, ?_⟩, rfl, rfl, fun hours => rfl⟩
  · simpa using PRat.lt_toQ_of electricity_cost_per_hour 5999 1000000
      (by decide) (by decide) (by decide)
  · simpa using PRat.toQ_lt_of electricity_cost_per_hour 6001 1000000
      (by decide) (by decide) (by decide)

/-- A run used to refute the emitted-field additivity of C5: a `1m 24s`
duration with no filament usage and the default filament price. -/
def ex_hours : PRat := Total_printing_hours (some (("; total estimated time: 1m 24s").toList))

def ex_grams : PRat := total_used_grams none none

def ex_fil : PRat := filament_cost filament_price_default ex_grams

/-- C5 counterexample: for the `1m 24s` run the emitted rounded fields are not
additive: `total_cost` is the float 0.0057 while
`depreciation_cost + electricity_cost + filament_cost` is 0.0055 + 0.0001 + 0. -/
theorem claim_C5_counterexample :
    (result_json ex_hours ex_fil ex_grams).total_cost.toQ ≠
      (result_json ex_hours ex_fil ex_grams).depreciation_cost.toQ +
        (result_json ex_hours ex_fil ex_grams).electricity_cost.toQ +
        (result_json ex_hours ex_fil ex_grams).filament_cost.toQ := by
  have h1 : (result_json ex_hours ex_fil ex_grams).depreciation_cost.toQ =
      (3170534137668829 : ℚ) / 576460752303423488 := by
    simpa using PRat.toQ_eq_of (result_json ex_hours ex_fil ex_grams).depreciation_cost
      3170534137668829 576460752303423488 (by decide) (by decide) (by decide)
  have h2 : (result_json ex_hours ex_fil ex_grams).electricity_cost.toQ =
      (7378697629483821 : ℚ) / 73786976294838206464 := by
    simpa using PRat.toQ_eq_of (result_json ex_hours ex_fil ex_grams).electricity_cost
      7378697629483821 73786976294838206464 (by decide) (by decide) (by decide)
  have h3 : (result_json ex_hours ex_fil ex_grams).filament_cost.toQ = (0 : ℚ) / 1 := by
    simpa using PRat.toQ_eq_of (result_json ex_hours ex_fil ex_grams).filament_cost
      0 1 (by decide) (by decide) (by decide)
  have h4 : (result_json ex_hours ex_fil ex_grams).total_cost.toQ =
      (1642913144064757 : ℚ) / 288230376151711744 := by
    simpa using PRat.toQ_eq_of (result_json ex_hours ex_fil ex_grams).total_cost
      1642913144064757 288230376151711744 (by decide) (by decide) (by decide)
  rw [h1, h2, h3, h4]
  norm_num

/-- C5 (amended): the computed total cost is exactly the float sum
`depreciation + electricity + filament` (line 642), but the four fields of
`result_json` are rounded to different precisions, so the emitted values need
not be additive; for the `1m 24s` run they are the floats 0.0057, 0.0055,
0.0001 and 0.0, and 0.0055 + 0.0001 + 0.0 = 0.0056 ≠ 0.0057. -/
theorem claim_C5_amended_cost_additivity :
    (∀ hours fil : PRat, total_cost hours fil =
      pyAdd (pyAdd (pyMul hours total_dep_cost_per_hour)
        (pyMul hours electricity_cost_per_hour)) fil) ∧
    (result_json ex_hours ex_fil ex_grams).total_cost = flP ⟨57, 10000⟩ ∧
    (result_json ex_hours ex_fil ex_grams).depreciation_cost = flP ⟨55, 10000⟩ ∧
    (result_json ex_hours ex_fil ex_grams).electricity_cost = flP ⟨1, 10000⟩ ∧
    (result_json ex_hours ex_fil ex_grams).filament_cost = PRat.ofInt 0 :=
  ⟨fun hours fil => rfl, by decide, by decide, by decide, by decide⟩

/-- C6: when the parsed mass is absent or zero and a length (meters) is
available, the grams are derived as
`meters * 100 * FILAMENT_CROSS_SECTION * DEFAULT_FILAMENT_DENSITY`, where the
cross-section comes from the 1.75 mm diameter (0.0875 cm radius) and the
density default is 1.24 g/cm³; the cross-section is within 10⁻⁵ of 0.02405,
and 10 meters yield 29.8255 g, within the claimed 29.82 ± 0.01. -/
theorem claim_C6_mass_fallback :
    (∀ m : PRat, total_used_grams none (some m) =
        pyMul (pyMul (pyMul m (PRat.ofInt 100)) FILAMENT_CROSS_SECTION)
          DEFAULT_FILAMENT_DENSITY ∧
      total_used_grams (some (PRat.ofInt 0)) (some m) =
        pyMul (pyMul (pyMul m (PRat.ofInt 100)) FILAMENT_CROSS_SECTION)
          DEFAULT_FILAMENT_DENSITY) ∧
    FILAMENT_CROSS_SECTION =
      pyMul (flP ⟨314159, 100000⟩)
        (pyMul (pyDivF (flP ⟨175, 1000⟩) (PRat.ofInt 2))
          (pyDivF (flP ⟨175, 1000⟩) (PRat.ofInt 2))) ∧
    abs (FILAMENT_CROSS_SECTION.toQ - 2405 / 100000) < 1 / 100000 ∧
    abs ((total_used_grams (some (PRat.ofInt 0)) (some (flP ⟨10, 1⟩))).toQ - 2982 / 100) ≤
      1 / 100 := by
  refine ⟨fun m => ⟨rfl, rfl⟩, by decide, ?_, ?_⟩
  · have hlo : (2404 : ℚ) / 100000 < FILAMENT_CROSS_SECTION.toQ := by
      simpa using PRat.lt_toQ_of FILAMENT_CROSS_SECTION 2404 100000
        (by decide) (by decide) (by decide)
    have hhi : FILAMENT_CROSS_SECTION.toQ < (2406 : ℚ) / 100000 := by
      simpa using PRat.toQ_lt_of FILAMENT_CROSS_SECTION 2406 100000
        (by decide) (by decide) (by decide)
    rw [abs_lt]
    constructor <;> linarith
  · have hlo : (2981 : ℚ) / 100 <
        (total_used_grams (some (PRat.ofInt 0)) (some (flP ⟨10, 1⟩))).toQ := by
      simpa using PRat.lt_toQ_of (total_used_grams (some (PRat.ofInt 0)) (some (flP ⟨10, 1⟩)))
        2981 100 (by decide) (by decide) (by decide)
    have hhi : (total_used_grams (some (PRat.ofInt 0)) (some (flP ⟨10, 1⟩))).toQ <
        (2983 : ℚ) / 100 := by
      simpa using PRat.toQ_lt_of (total_used_grams (some (PRat.ofInt 0)) (some (flP ⟨10, 1⟩)))
        2983 100 (by decide) (by decide) (by decide)
    rw [abs_le]
    constructor <;> linarith

/-- C7 counterexample: the total depreciation rate per hour is not the sum of
`price / lifespan` over the table: the code rounds each quotient to 3
decimals first (line 584), giving about 0.237 instead of about 0.2394. -/
theorem claim_C7_counterexample :
    total_dep_cost_per_hour.toQ ≠ specDepRatePerHour := by
  have h1 : total_dep_cost_per_hour.toQ < (2375 : ℚ) / 10000 := by
    simpa using PRat.toQ_lt_of total_dep_cost_per_hour 2375 10000
      (by decide) (by decide) (by decide)
  have h2 : (2375 : ℚ) / 10000 < specDepRatePerHour := by
    norm_num [specDepRatePerHour, items]
  intro he
  linarith [h1, h2, he.le, he.ge]

/-- C7 (amended): the total depreciation rate per hour is the float sum over
the parts table of `round(price / lifespan, 3)` — about 0.237, not the sum of
the raw quotients — the LCD Screen row's lifespan is the literal `5*365*24`
despite the minutes label, and the depreciation cost is the float product of
the printing hours with that total rate. -/
theorem claim_C7_amended_depreciation :
    total_dep_cost_per_hour =
      items.foldl
        (fun acc it =>
          pyAdd acc (pyRoundP (pyDivF (PRat.ofInt it.price) (PRat.ofInt it.lifespan_min)) 3))
        (PRat.ofInt 0) ∧
    (items.getD 12 ⟨[], 0, 1⟩).name = ("LCD Screen").toList ∧
    (items.getD 12 ⟨[], 0, 1⟩).lifespan_min = 5 * 365 * 24 ∧
    ((2369 : ℚ) / 10000 < total_dep_cost_per_hour.toQ ∧
      total_dep_cost_per_hour.toQ < (2371 : ℚ) / 10000) ∧
    ∀ hours : PRat, total_depreciation_cost hours = pyMul hours total_dep_cost_per_hour := by
  refine ⟨by decide, by decide, by decide, ⟨?_, ?_⟩, fun hours => rfl⟩
  · simpa using PRat.lt_toQ_of total_dep_cost_per_hour 2369 10000
      (by decide) (by decide) (by decide)
  · simpa using PRat.toQ_lt_of total_dep_cost_per_hour 2371 10000
      (by decide) (by decide) (by decide)

theorem hexDigit_injective : Function.Injective hexDigit := by decide

theorem requestIdMap_injective :
    Function.Injective (fun f : Fin 8 → Fin 16 => List.ofFn (fun i => hexDigit (f i))) := by
  intro f g h
  have h2 := List.ofFn_injective h
  funext i
  exact hexDigit_injective (congrFun h2 i)

/-- C8 counterexample: the space of identifiers the generator can produce has
exactly `16 ^ 8 = 2 ^ 32` elements, which is less than the `2 ^ 48` the claim
requires. -/
theorem claim_C8_counterexample :
    requestIdSpace.card = 16 ^ 8 ∧ (16 : ℕ) ^ 8 < 2 ^ 48 := by
  constructor
  · unfold requestIdSpace
    rw [Finset.card_image_of_injective _ requestIdMap_injective, Finset.card_univ,
      Fintype.card_fun]
    simp
  · norm_num

/-- C8 (amended): the generated identifier is the first 8 characters of
`str(uuid.uuid4())` — 8 lowercase hexadecimal digits — so it is drawn from
`requestIdSpace`, a set of exactly `16 ^ 8 = 2 ^ 32` values, short of the
claimed `2 ^ 48`. -/
theorem claim_C8_amended_request_id_space :
    ∀ s : List Char, isUuid4String s = true → gen_request_id s ∈ requestIdSpace := by
  intro s hs
  unfold isUuid4String at hs
  rw [Bool.and_eq_true, beq_iff_eq, List.all_eq_true] at hs
  obtain ⟨hlen, hall⟩ := hs
  have hdig : ∀ i : Fin 8, ∃ k : Fin 16, hexDigit k = s.getD (i : ℕ) ' ' := by
    intro i
    have hi : (i : ℕ) ∈ List.range 36 := List.mem_range.mpr (by omega)
    have h1 := hall _ hi
    rw [if_neg (by omega)] at h1
    have h2 : s.getD (i : ℕ) ' ' ∈ List.ofFn hexDigit := by
      simpa [List.contains] using h1
    obtain ⟨k, hk⟩ := Set.mem_range.mp ((List.mem_ofFn _ _).mp h2)
    exact ⟨k, hk⟩
  classical
  choose F hF using hdig
  unfold gen_request_id requestIdSpace
  rw [Finset.mem_image]
  refine ⟨F, Finset.mem_univ _, ?_⟩
  apply List.ext_getElem
  · simp [hlen]
  · intro i h1 h2
    have hi8 : i < 8 := by
      simpa [hlen] using h2
    have hi36 : i < s.length := by omega
    rw [List.getElem_ofFn, List.getElem_take]
    have h3 := hF ⟨i, hi8⟩
    rwa [List.getD_eq_getElem?_getD, List.getElem?_eq_getElem hi36] at h3

theorem claim_C8_witness :
    isUuid4String (("1f2a3b4c-1234-4abc-8def-0123456789ab").toList) = true ∧
    gen_request_id (("1f2a3b4c-1234-4abc-8def-0123456789ab").toList) ∈ requestIdSpace :=
  ⟨by decide, claim_C8_amended_request_id_space _ (by decide)⟩

theorem endsWithL_append_percent (s : List Char) : endsWithL (s ++ ['%']) ['%'] = true := by
  unfold endsWithL
  rw [List.isSuffixOf_iff_suffix]
  exact List.suffix_append s ['%']

/-- C9: for every non-empty infill-density override, the value written into
the effective profile ends with `%`: a value lacking the trailing percent
sign gets one appended, the transformation is idempotent, and in particular
`30` becomes `30%` while `30%` stays `30%`. -/
theorem claim_C9_infill_percent :
    ∀ s : List Char, s ≠ [] →
      endsWithL (density_value s) ['%'] = true ∧
      density_value (density_value s) = density_value s ∧
      density_value (("30").toList) = ("30%").toList ∧
      density_value (("30%").toList) = ("30%").toList := by
  intro s hs
  have hends : endsWithL (density_value s) ['%'] = true := by
    unfold density_value
    by_cases h : endsWithL s ['%'] = true
    · rw [if_pos h]
      exact h
    · simp only [h, Bool.false_eq_true, if_false]
      exact endsWithL_append_percent s
  refine ⟨hends, ?_, by decide, by decide⟩
  unfold density_value at hends ⊢
  by_cases h : endsWithL s ['%'] = true
  · simp [h]
  · simp only [h, Bool.false_eq_true, if_false] at hends ⊢
    simp [endsWithL_append_percent s]

theorem claim_C9_witness :
    (("30").toList ≠ ([] : List Char)) ∧
    (endsWithL (density_value (("30").toList)) ['%'] = true ∧
      density_value (density_value (("30").toList)) = density_value (("30").toList) ∧
      density_value (("30").toList) = ("30%").toList ∧
      density_value (("30%").toList) = ("30%").toList) :=
  ⟨by decide, claim_C9_infill_percent _ (by decide)⟩

/-- C10: pre-sliced detection is attempted only for inputs whose extension is
`.3mf` (case-insensitively); for any other extension the input needs slicing
and the slicer is launched, no matter what the archive contains — even when
it holds both required metadata entries. -/
theorem claim_C10_extension_gate :
    ∀ (p : List Char) (a : Option (List (List Char))),
      lowerChars (splitext_ext p) ≠ (".3mf").toList →
      needs_slicing p a = true ∧
      ∀ (op : List Char) (s : SlicerOutcome) (oe av : Bool),
        (runMain p a op s oe av).slicerLaunched = true := by
  intro p a h
  have h3 : is_3mf_file p = false := by
    unfold is_3mf_file
    exact decide_eq_false h
  have hpre : is_presliced_3mf p a = false := by
    unfold is_presliced_3mf
    rw [h3]
    rfl
  have hns : needs_slicing p a = true := by
    unfold needs_slicing
    rw [hpre]
    rfl
  refine ⟨hns, ?_⟩
  intro op s oe av
  rcases s <;> cases oe <;> cases av <;> simp [runMain, parsePhase, hns]

theorem claim_C10_witness :
    (lowerChars (splitext_ext (("model.stl").toList)) ≠ (".3mf").toList) ∧
    needs_slicing (("model.stl").toList)
      (some [("Metadata/slice_info.config").toList, ("Metadata/plate_1.gcode").toList]) =
      true :=
  ⟨by decide,
    (claim_C10_extension_gate (("model.stl").toList)
      (some [("Metadata/slice_info.config").toList, ("Metadata/plate_1.gcode").toList])
      (by decide)).1⟩
